import Mathlib

/-!
Verification of the Fusion AI billing and admin-CRUD core.

This file shallowly embeds the cost calculator
(`backend/dist/utils/costCalculator.js`), the admin credit-adjustment
handler (`POST /api/admin/users/:userId/adjust-credits`), the user-role
update handler (`PUT /api/admin/users/:userId/role`) and the model
configuration update handler (`PUT /api/admin/models/:modelId`).

Database reads are modelled by explicit `DbFetch` values (a query either
throws, returns no row, or returns a first row); JavaScript `parseFloat`
results that may be `NaN` are modelled with `Option ℚ` (`none` = `NaN`);
JavaScript numbers are modelled by `ℚ` and balances by `ℤ` (they are
integer cents).  A request handler that runs a transaction is a pure
function from the database state to a result together with the state
after commit (abort paths return the initial state, modelling `ROLLBACK`).
-/

namespace Fusion

/-- Result of one database query: the query threw, returned zero rows,
or returned a first row of type `α`. -/
inductive DbFetch (α : Type) where
  | err : DbFetch α
  | empty : DbFetch α
  | row : α → DbFetch α
deriving DecidableEq, Repr

/-- JavaScript `String.prototype.toLowerCase()` over the embedded strings
(character-wise lowering, which agrees with it on the ASCII keys this
code base uses). -/
def jsToLower (s : String) : String := ⟨s.data.map Char.toLower⟩

/-- JavaScript `String.prototype.trim()`: strip leading and trailing
whitespace. -/
def jsTrim (s : String) : String :=
  ⟨((s.data.dropWhile Char.isWhitespace).reverse.dropWhile Char.isWhitespace).reverse⟩

/-! ## Cost calculator (`costCalculator.js`) -/

/-- `DEFAULT_FALLBACK_RATE = { input: 0.002, output: 0.002 }` (per 1K tokens). -/
def DEFAULT_FALLBACK_RATE_input : ℚ := 2 / 1000

/-- `DEFAULT_FALLBACK_RATE.output = 0.002` (per 1K tokens). -/
def DEFAULT_FALLBACK_RATE_output : ℚ := 2 / 1000

/-- `FALLBACK_NEUROSWITCH_CLASSIFIER_FEE_DOLLARS = 0.001`. -/
def FALLBACK_NEUROSWITCH_CLASSIFIER_FEE_DOLLARS : ℚ := 1 / 1000

/-- `FALLBACK_PRICING_PRIME_MULTIPLIER = 1.0`. -/
def FALLBACK_PRICING_PRIME_MULTIPLIER : ℚ := 1

/-- The static `FIXED_MODEL_COSTS` table, keyed by `"provider/model_id_string"`. -/
def FIXED_MODEL_COSTS (key : String) : Option ℚ :=
  if key = "openai/dall-e-3" then some (4 / 100)
  else if key = "openai/dall-e-3-wide" then some (8 / 100)
  else if key = "openai/dall-e-3-tall" then some (8 / 100)
  else none

/-- Provider normalisation performed by `calculateLlmProviderCost`:
lowercase, then the synonyms `gemini → google` and `claude → anthropic`. -/
def normalizeProvider (neuroSwitchProvider : String) : String :=
  let dbProvider := jsToLower neuroSwitchProvider
  if dbProvider = "gemini" then "google"
  else if dbProvider = "claude" then "anthropic"
  else dbProvider

/-- One row of the `models` table as read by the cost calculator.  The two
cost columns are the values after `parseFloat`; `none` models a value that
parses to `NaN`. -/
structure ModelRateRow where
  input_cost_per_million_tokens : Option ℚ
  output_cost_per_million_tokens : Option ℚ
deriving DecidableEq, Repr

/-- The `pricing_prime_percentage` handling of `calculateLlmProviderCost`:
a successfully fetched, numeric, non-negative percentage `p` yields the
multiplier `1 + p/100`; a thrown query, a missing row, a `NaN` parse or a
negative value all yield the fallback multiplier `1.0`. -/
def pricingPrimeMultiplier (primeConfig : DbFetch (Option ℚ)) : ℚ :=
  match primeConfig with
  | DbFetch.row (some primePercentage) =>
      if 0 ≤ primePercentage then 1 + primePercentage / 100
      else FALLBACK_PRICING_PRIME_MULTIPLIER
  | _ => FALLBACK_PRICING_PRIME_MULTIPLIER

/-- `parseFloat(finalCost.toFixed(6))`: rounding to 6 decimal places. -/
def round6 (x : ℚ) : ℚ := (round (x * 1000000) : ℚ) / 1000000

/-- The default-rate base cost used on every fallback path:
`(inputTokens/1000)*0.002 + (outputTokens/1000)*0.002`. -/
def fallbackBaseCost (inputTokens outputTokens : ℚ) : ℚ :=
  (inputTokens / 1000) * DEFAULT_FALLBACK_RATE_input
    + (outputTokens / 1000) * DEFAULT_FALLBACK_RATE_output

/-- The fixed-price early exit of `calculateLlmProviderCost`: when a model
id string is present and truthy (JavaScript `if (modelIdString)`, so the
empty string does not take this path), look the normalised
`provider/model` key up in `FIXED_MODEL_COSTS`. -/
def fixedCostLookup (neuroSwitchProvider : String) (modelIdString : Option String) : Option ℚ :=
  match modelIdString with
  | none => none
  | some m =>
      if m = "" then none
      else FIXED_MODEL_COSTS (normalizeProvider neuroSwitchProvider ++ "/" ++ jsToLower m)

/-- The token-metered base cost of `calculateLlmProviderCost`: an absent or
empty model id string, a thrown `models` query, a missing row, or a `NaN`
rate all degrade to `fallbackBaseCost`; otherwise
`(inputTokens/1000)*inputRatePer1k + (outputTokens/1000)*outputRatePer1k`
where each per-1K rate is the stored per-million rate divided by 1000.
`rateDb` maps the `(dbProvider, fullIdString)` query parameters to the
query outcome. -/
def tokenBaseCost (rateDb : String → String → DbFetch ModelRateRow)
    (neuroSwitchProvider : String) (modelIdString : Option String)
    (inputTokens outputTokens : ℚ) : ℚ :=
  match modelIdString with
  | none => fallbackBaseCost inputTokens outputTokens
  | some m =>
      if m = "" then fallbackBaseCost inputTokens outputTokens
      else
        let dbProvider := normalizeProvider neuroSwitchProvider
        let fullIdString := dbProvider ++ "/" ++ jsToLower m
        match rateDb dbProvider fullIdString with
        | DbFetch.row r =>
            match r.input_cost_per_million_tokens, r.output_cost_per_million_tokens with
            | some i, some o =>
                (inputTokens / 1000) * (i / 1000) + (outputTokens / 1000) * (o / 1000)
            | _, _ => fallbackBaseCost inputTokens outputTokens
        | _ => fallbackBaseCost inputTokens outputTokens

/-- `calculateLlmProviderCost`, as a function of the `models`-table query
outcome `rateDb` and the `pricing_prime_percentage` query outcome
`primeConfig`.  The fixed-price early exit skips the token math; both
paths multiply by the prime multiplier and round to 6 decimals. -/
def calculateLlmProviderCost (rateDb : String → String → DbFetch ModelRateRow)
    (primeConfig : DbFetch (Option ℚ))
    (neuroSwitchProvider : String) (modelIdString : Option String)
    (inputTokens outputTokens : ℚ) : ℚ :=
  match fixedCostLookup neuroSwitchProvider modelIdString with
  | some baseCost => round6 (baseCost * pricingPrimeMultiplier primeConfig)
  | none =>
      round6 (tokenBaseCost rateDb neuroSwitchProvider modelIdString inputTokens outputTokens
        * pricingPrimeMultiplier primeConfig)

/-- A `models`-table lookup outcome that forces the default-rate fallback:
the query threw, found no row, or found a row whose rates do not both
parse to numbers. -/
def rateLookupDegraded (f : DbFetch ModelRateRow) : Prop :=
  match f with
  | DbFetch.err => True
  | DbFetch.empty => True
  | DbFetch.row r =>
      r.input_cost_per_million_tokens = none ∨ r.output_cost_per_million_tokens = none

instance (f : DbFetch ModelRateRow) : Decidable (rateLookupDegraded f) := by
  unfold rateLookupDegraded
  cases f with
  | err => exact inferInstanceAs (Decidable True)
  | empty => exact inferInstanceAs (Decidable True)
  | row r => exact inferInstanceAs (Decidable (_ ∨ _))

/-- An `app_config` value fetch that degrades to the hardcoded fallback:
thrown query, missing row, `NaN` parse, or negative value.  The same
shape of check guards both `pricing_prime_percentage` and
`neuroswitch_classifier_fee_cents`. -/
def configValueDegraded (primeConfig : DbFetch (Option ℚ)) : Prop :=
  primeConfig = DbFetch.err ∨ primeConfig = DbFetch.empty
    ∨ primeConfig = DbFetch.row none
    ∨ ∃ v : ℚ, primeConfig = DbFetch.row (some v) ∧ v < 0

/-- `getNeuroSwitchClassifierFee`: a fetched, numeric, non-negative
`neuroswitch_classifier_fee_cents` is converted cents → dollars; a thrown
query, missing row, `NaN` parse or negative value yields the hardcoded
fallback of 0.001 dollars. -/
def getNeuroSwitchClassifierFee (feeConfig : DbFetch (Option ℚ)) : ℚ :=
  match feeConfig with
  | DbFetch.row (some feeCents) =>
      if 0 ≤ feeCents then feeCents / 100
      else FALLBACK_NEUROSWITCH_CLASSIFIER_FEE_DOLLARS
  | _ => FALLBACK_NEUROSWITCH_CLASSIFIER_FEE_DOLLARS

/-! ## Credit ledger and admin adjustment (`adjust-credits` route) -/

/-- One `credit_transactions` row as inserted by the adjustment handler. -/
structure CreditTransaction where
  user_id : ℕ
  amount_cents : ℤ
  method : String
  status : String
  description : String
deriving DecidableEq, Repr

/-- The database state the adjustment handler touches: the `users` table
(ids only), the `user_credits` table (`user_id → balance_cents`, `none`
when no ledger row exists), the `credit_transactions` rows in insertion
order, and the number of `admin_actions_logs` rows. -/
structure LedgerState where
  users : List ℕ
  credits : ℕ → Option ℤ
  transactions : List CreditTransaction
  adminLogCount : ℕ

/-- Point update of the `user_credits` map. -/
def setBalance (credits : ℕ → Option ℤ) (uid : ℕ) (v : ℤ) : ℕ → Option ℤ :=
  fun u => if u = uid then some v else credits u

/-- `INSERT ... VALUES ($1, insertValue) ON CONFLICT (user_id) DO UPDATE
SET balance_cents = user_credits.balance_cents + addValue RETURNING
balance_cents`: insert `insertValue` when no row exists, otherwise add
`addValue`; also returns the resulting balance. -/
def upsertAddReturning (credits : ℕ → Option ℤ) (uid : ℕ) (insertValue addValue : ℤ) :
    (ℕ → Option ℤ) × ℤ :=
  match credits uid with
  | none => (setBalance credits uid insertValue, insertValue)
  | some b => (setBalance credits uid (b + addValue), b + addValue)

/-- `INSERT ... VALUES ($1, v) ON CONFLICT (user_id) DO UPDATE SET
balance_cents = v RETURNING balance_cents`: the final, direct-set upsert. -/
def upsertSetReturning (credits : ℕ → Option ℤ) (uid : ℕ) (v : ℤ) :
    (ℕ → Option ℤ) × ℤ :=
  match credits uid with
  | none => (setBalance credits uid v, v)
  | some _ => (setBalance credits uid v, v)

/-- The handler's actual sequence of three upserts against `user_credits`:
first `INSERT amount ... DO UPDATE balance += amount`, then
`INSERT projected ... DO UPDATE balance += amount`, finally
`INSERT projected ... DO UPDATE SET balance = projected`.  Returns the
final map and the balance returned by the last upsert. -/
def creditUpsertSequence (credits : ℕ → Option ℤ) (uid : ℕ) (amount projected : ℤ) :
    (ℕ → Option ℤ) × ℤ :=
  let r1 := upsertAddReturning credits uid amount amount
  let r2 := upsertAddReturning r1.1 uid projected amount
  upsertSetReturning r2.1 uid projected

/-- Outcome of the adjust-credits handler, mirroring its HTTP responses. -/
inductive AdjustResult where
  | invalidAmount
  | invalidReason
  | targetNotFound
  | negativeBalance (currentBalanceCents : ℤ)
  | success (previousBalanceCents adjustedAmountCents newBalanceCents : ℤ)
deriving DecidableEq, Repr

/-- `POST /api/admin/users/:userId/adjust-credits` as a transaction on
`LedgerState`.  Validation: `amount_cents` must be a nonzero integer and
`reason` non-empty after trimming.  A missing `user_credits` row is an
error only when the `users` row is also missing; otherwise the current
balance is the stored one, or `0` when no ledger row exists.  A negative
projection aborts with the current balance; otherwise the three-upsert
sequence runs, one `credit_transactions` row is appended and one admin
log entry recorded, and the transaction commits. -/
def adjustCredits (st : LedgerState) (targetUserId : ℕ) (amount_cents : ℤ)
    (reason : String) : AdjustResult × LedgerState :=
  if amount_cents = 0 then (AdjustResult.invalidAmount, st)
  else if jsTrim reason = "" then (AdjustResult.invalidReason, st)
  else if st.credits targetUserId = none ∧ targetUserId ∉ st.users then
    (AdjustResult.targetNotFound, st)
  else
    let currentBalanceCents : ℤ := (st.credits targetUserId).getD 0
    let projectedNewBalance := currentBalanceCents + amount_cents
    if projectedNewBalance < 0 then
      (AdjustResult.negativeBalance currentBalanceCents, st)
    else
      let finalUpsert := creditUpsertSequence st.credits targetUserId amount_cents
        projectedNewBalance
      (AdjustResult.success currentBalanceCents amount_cents finalUpsert.2,
       { st with
          credits := finalUpsert.1,
          transactions := st.transactions ++
            [⟨targetUserId, amount_cents, "admin_adjustment", "completed",
              "Admin Credit Adjustment: " ++ reason⟩],
          adminLogCount := st.adminLogCount + 1 })

/-- Read-committed interleaving of two adjust-credits transactions on the
same user in which both balance `SELECT`s — plain, non-locking reads —
execute before either transaction writes.  Afterwards the first
transaction's upsert sequence runs and commits, then the second's (its
upserts block on the row lock until the first commit, but its final
upsert overwrites the balance with its own stale projection).  Returns
the final `user_credits` map and whether each transaction passed the
negative-balance check and committed. -/
def adjustConcurrentStaleRead (credits0 : ℕ → Option ℤ) (uid : ℕ) (a1 a2 : ℤ) :
    (ℕ → Option ℤ) × Bool × Bool :=
  let current1 := (credits0 uid).getD 0
  let current2 := (credits0 uid).getD 0
  let p1 := current1 + a1
  let p2 := current2 + a2
  if p1 < 0 then
    if p2 < 0 then (credits0, false, false)
    else ((creditUpsertSequence credits0 uid a2 p2).1, false, true)
  else
    let afterT1 := (creditUpsertSequence credits0 uid a1 p1).1
    if p2 < 0 then (afterT1, true, false)
    else ((creditUpsertSequence afterT1 uid a2 p2).1, true, true)

/-! ## User-role update (`PUT /api/admin/users/:userId/role`) -/

/-- `VALID_ROLES = ['admin', 'pro', 'user', 'sub_user', 'tester']`. -/
def VALID_ROLES : List String := ["admin", "pro", "user", "sub_user", "tester"]

/-- The `users` table as the role-update handler sees it: `id → role`. -/
structure UsersDb where
  roles : ℕ → Option String

/-- Outcome of the role-update handler, mirroring its HTTP responses. -/
inductive RoleUpdateResult where
  | invalidRole
  | selfDemotion
  | targetNotFound
  | noChange (role : String)
  | updated (role : String)
deriving DecidableEq, Repr

/-- `PUT /api/admin/users/:userId/role`: reject a role outside
`VALID_ROLES` (case-insensitively), reject an admin demoting themselves,
404 on a missing target, roll back with a no-change success message when
the stored role already equals the requested one, otherwise write the new
role. -/
def updateUserRole (db : UsersDb) (adminUserId targetUserId : ℕ) (newRole : String) :
    RoleUpdateResult × UsersDb :=
  if jsToLower newRole ∉ VALID_ROLES then (RoleUpdateResult.invalidRole, db)
  else if targetUserId = adminUserId ∧ jsToLower newRole ≠ "admin" then
    (RoleUpdateResult.selfDemotion, db)
  else
    match db.roles targetUserId with
    | none => (RoleUpdateResult.targetNotFound, db)
    | some currentRole =>
        if currentRole = jsToLower newRole then
          (RoleUpdateResult.noChange (jsToLower newRole), db)
        else
          (RoleUpdateResult.updated (jsToLower newRole),
           ⟨fun u => if u = targetUserId then some (jsToLower newRole) else db.roles u⟩)

/-! ## Model configuration update (`PUT /api/admin/models/:modelId`) -/

/-- One row of the `models` table as the update handler reads it.  The two
cost columns are the values after `parseFloat`; `none` models a stored
value that parses to `NaN` (JavaScript `NaN === x` is always false). -/
structure ModelRow where
  name : String
  input_cost_per_million_tokens : Option ℚ
  output_cost_per_million_tokens : Option ℚ
  is_active : Bool
deriving DecidableEq, Repr

/-- The `models` table: `id → row`. -/
structure ModelsDb where
  rows : ℕ → Option ModelRow

/-- Outcome of the model-configuration update handler. -/
inductive ModelUpdateResult where
  | invalidCost
  | modelNotFound
  | noChange
  | updated
deriving DecidableEq, Repr

/-- `PUT /api/admin/models/:modelId`: the request costs are the
`parseFloat` of the body fields (`none` = `NaN`); `NaN` or negative costs
are rejected before any read.  When the stored costs and active flag all
equal the requested ones the transaction rolls back with a no-change
success; otherwise the row is rewritten. -/
def updateModelConfig (db : ModelsDb) (modelId : ℕ)
    (inputCost outputCost : Option ℚ) (is_active : Bool) :
    ModelUpdateResult × ModelsDb :=
  match inputCost, outputCost with
  | some ic, some oc =>
      if ic < 0 ∨ oc < 0 then (ModelUpdateResult.invalidCost, db)
      else
        match db.rows modelId with
        | none => (ModelUpdateResult.modelNotFound, db)
        | some row =>
            if row.input_cost_per_million_tokens = some ic
                ∧ row.output_cost_per_million_tokens = some oc
                ∧ row.is_active = is_active then
              (ModelUpdateResult.noChange, db)
            else
              (ModelUpdateResult.updated,
               ⟨fun i => if i = modelId then
                  some { row with
                          input_cost_per_million_tokens := some ic,
                          output_cost_per_million_tokens := some oc,
                          is_active := is_active }
                 else db.rows i⟩)
  | _, _ => (ModelUpdateResult.invalidCost, db)

/-! ## Concrete fixtures used by the witness theorems -/

/-- A `models`-table environment holding one row: provider `google`, id
string `google/gemini-1.5-flash`, rates $1/M input and $2/M output. -/
def geminiRateDb : String → String → DbFetch ModelRateRow :=
  fun p i =>
    if p = "google" ∧ i = "google/gemini-1.5-flash" then
      DbFetch.row ⟨some 1, some 2⟩
    else DbFetch.empty

/-- A `models`-table environment whose every query throws. -/
def throwingRateDb : String → String → DbFetch ModelRateRow := fun _ _ => DbFetch.err

/-- Ledger fixture: user 7 exists with a `user_credits` row of 100 cents. -/
def ledgerU7 : LedgerState :=
  { users := [7],
    credits := fun u => if u = 7 then some 100 else none,
    transactions := [],
    adminLogCount := 0 }

/-- Users-table fixture: user 1 is the sole user and has role `admin`. -/
def soleAdminDb : UsersDb :=
  ⟨fun u => if u = 1 then some "admin" else none⟩

/-- Models-table fixture: model 3 with numeric costs 5 and 15, active. -/
def modelsDb3 : ModelsDb :=
  ⟨fun i => if i = 3 then some ⟨"gpt-4o", some 5, some 15, true⟩ else none⟩

/-! ## Helper lemmas -/

/-- Writing the same key twice keeps only the second write. -/
theorem setBalance_setBalance (credits : ℕ → Option ℤ) (uid : ℕ) (a b : ℤ) :
    setBalance (setBalance credits uid a) uid b = setBalance credits uid b := by
  funext u
  unfold setBalance
  by_cases h : u = uid <;> simp [h]

/-- The direct-set upsert is a point update whichever branch it takes. -/
theorem upsertSetReturning_eq (credits : ℕ → Option ℤ) (uid : ℕ) (v : ℤ) :
    upsertSetReturning credits uid v = (setBalance credits uid v, v) := by
  unfold upsertSetReturning
  cases credits uid <;> rfl

/-- The handler's three-upsert sequence collapses to a single point update
to `projected`, whether or not a ledger row existed. -/
theorem creditUpsertSequence_eq (credits : ℕ → Option ℤ) (uid : ℕ) (amount projected : ℤ) :
    creditUpsertSequence credits uid amount projected
      = (setBalance credits uid projected, projected) := by
  unfold creditUpsertSequence
  cases h : credits uid with
  | none =>
      simp [upsertAddReturning, h, setBalance, upsertSetReturning_eq, setBalance_setBalance]
  | some b =>
      simp [upsertAddReturning, h, setBalance, upsertSetReturning_eq, setBalance_setBalance]

/-- Rounding to six decimals of a rational that is an integer number of
millionths. -/
theorem round6_intValue (x : ℚ) (n : ℤ) (h : x * 1000000 = (n : ℚ)) :
    round6 x = (n : ℚ) / 1000000 := by
  unfold round6
  rw [h, round_intCast]

/-! ## Claim theorems -/

/-- Claim C1: for an existing target user with current balance `B` (a
missing `user_credits` row counting as balance 0), a nonzero integer
`amount_cents` with `B + amount_cents ≥ 0` and a non-empty reason, the
adjustment succeeds, the stored balance becomes exactly `B + amount_cents`
(the boundary `B + amount_cents = 0` included), and exactly one new
`credit_transactions` row is appended, carrying the signed amount, method
`admin_adjustment` and status `completed`. -/
theorem adjustCredits_success (st : LedgerState) (uid : ℕ) (amount : ℤ) (reason : String)
    (hu : uid ∈ st.users) (ha : amount ≠ 0) (hr : jsTrim reason ≠ "")
    (hb : 0 ≤ (st.credits uid).getD 0 + amount) :
    (adjustCredits st uid amount reason).1
        = AdjustResult.success ((st.credits uid).getD 0) amount ((st.credits uid).getD 0 + amount)
      ∧ (adjustCredits st uid amount reason).2.credits uid
        = some ((st.credits uid).getD 0 + amount)
      ∧ (adjustCredits st uid amount reason).2.transactions
        = st.transactions ++ [⟨uid, amount, "admin_adjustment", "completed",
            "Admin Credit Adjustment: " ++ reason⟩] := by
  have hnf : ¬(st.credits uid = none ∧ uid ∉ st.users) := fun h => h.2 hu
  unfold adjustCredits
  rw [if_neg ha, if_neg hr, if_neg hnf, if_neg (not_lt.mpr hb)]
  refine ⟨?_, ?_, rfl⟩
  · simp [creditUpsertSequence_eq]
  · simp [creditUpsertSequence_eq, setBalance]

/-- Witness for C1 at the boundary: user 7 holds 100 cents and is adjusted
by -100, succeeding with a final balance of exactly 0 and one new
`admin_adjustment`/`completed` transaction row of -100. -/
theorem adjustCredits_success_witness :
    7 ∈ ledgerU7.users ∧ (-100 : ℤ) ≠ 0 ∧ jsTrim "refund" ≠ ""
      ∧ 0 ≤ (ledgerU7.credits 7).getD 0 + (-100)
      ∧ (adjustCredits ledgerU7 7 (-100) "refund").1 = AdjustResult.success 100 (-100) 0
      ∧ (adjustCredits ledgerU7 7 (-100) "refund").2.credits 7 = some 0
      ∧ (adjustCredits ledgerU7 7 (-100) "refund").2.transactions
        = [⟨7, -100, "admin_adjustment", "completed", "Admin Credit Adjustment: refund"⟩] := by
  have h := adjustCredits_success ledgerU7 7 (-100) "refund"
    (by decide) (by decide) (by decide) (by decide)
  exact ⟨by decide, by decide, by decide, by decide,
    h.1.trans (by decide), h.2.1.trans (by decide), h.2.2.trans (by decide)⟩

/-- Claim C2: a projected negative balance aborts the transaction with an
error carrying the current balance (which is also the maximum permissible
deduction) and leaves the whole ledger state unchanged; more generally
every run of the handler either leaves the state unchanged or reports
success, so any failure before commit rolls back all writes. -/
theorem adjustCredits_negative_rejected (st : LedgerState) (uid : ℕ) (amount : ℤ)
    (reason : String) (hu : uid ∈ st.users) (ha : amount ≠ 0) (hr : jsTrim reason ≠ "")
    (hneg : (st.credits uid).getD 0 + amount < 0) :
    ((adjustCredits st uid amount reason).1
        = AdjustResult.negativeBalance ((st.credits uid).getD 0)
      ∧ (adjustCredits st uid amount reason).2 = st)
    ∧ ∀ (st₂ : LedgerState) (uid₂ : ℕ) (a₂ : ℤ) (r₂ : String),
        (adjustCredits st₂ uid₂ a₂ r₂).2 = st₂
          ∨ ∃ p a n, (adjustCredits st₂ uid₂ a₂ r₂).1 = AdjustResult.success p a n := by
  constructor
  · have hnf : ¬(st.credits uid = none ∧ uid ∉ st.users) := fun h => h.2 hu
    unfold adjustCredits
    rw [if_neg ha, if_neg hr, if_neg hnf, if_pos hneg]
    exact ⟨rfl, rfl⟩
  · intro st₂ uid₂ a₂ r₂
    unfold adjustCredits
    split_ifs <;> simp
    split <;> simp

/-- Witness for C2: user 7 holds 100 cents; an adjustment of -150 is
rejected carrying the current balance 100 and the state is unchanged. -/
theorem adjustCredits_negative_rejected_witness :
    7 ∈ ledgerU7.users ∧ (-150 : ℤ) ≠ 0 ∧ jsTrim "chargeback" ≠ ""
      ∧ (ledgerU7.credits 7).getD 0 + (-150) < 0
      ∧ (adjustCredits ledgerU7 7 (-150) "chargeback").1 = AdjustResult.negativeBalance 100
      ∧ (adjustCredits ledgerU7 7 (-150) "chargeback").2 = ledgerU7 := by
  have h := adjustCredits_negative_rejected ledgerU7 7 (-150) "chargeback"
    (by decide) (by decide) (by decide) (by decide)
  exact ⟨by decide, by decide, by decide, by decide, h.1.1.trans (by decide), h.1.2⟩

/-- Claim C3: the handler's actual sequence of upserts (two increment-style
`ON CONFLICT` upserts followed by a direct set to the precomputed
projection) equals the single direct-set upsert, and stores exactly
`current + amount_cents`, whether or not a `user_credits` row existed
(the statement quantifies over every initial map). -/
theorem creditUpsertSequence_refines_directSet (credits : ℕ → Option ℤ) (uid : ℕ)
    (amount : ℤ) :
    creditUpsertSequence credits uid amount ((credits uid).getD 0 + amount)
        = upsertSetReturning credits uid ((credits uid).getD 0 + amount)
      ∧ (creditUpsertSequence credits uid amount ((credits uid).getD 0 + amount)).1 uid
        = some ((credits uid).getD 0 + amount) := by
  constructor
  · rw [creditUpsertSequence_eq, upsertSetReturning_eq]
  · rw [creditUpsertSequence_eq]
    simp [setBalance]

/-- Claim C4 (refuted by the code): the balance read is a plain,
non-locking `SELECT`, so the read-committed schedule in which two
adjustments of -50 and -60 cents against a 100-cent balance both read
before either writes lets both pass the negative-balance check and
commit, and the final balance is the second transaction's stale
projection 40 — not 50, and not exactly one success. -/
theorem adjustConcurrent_lost_update :
    (adjustConcurrentStaleRead (fun u => if u = 1 then some 100 else none) 1 (-50) (-60)).2.1
        = true
      ∧ (adjustConcurrentStaleRead (fun u => if u = 1 then some 100 else none) 1 (-50) (-60)).2.2
        = true
      ∧ (adjustConcurrentStaleRead (fun u => if u = 1 then some 100 else none) 1 (-50) (-60)).1 1
        = some 40
      ∧ (adjustConcurrentStaleRead (fun u => if u = 1 then some 100 else none) 1 (-50) (-60)).1 1
        ≠ some 50 := by
  decide

/-- Claim C5: when a `ModelRate` row is found under the normalised
`(provider, provider/modelId)` key — provider synonyms applied by
`normalizeProvider` — and both stored per-million rates are numeric, the
cost is `round6` of
`((inputTokens/1000)*inputRatePer1k + (outputTokens/1000)*outputRatePer1k)`
times `1 + primePercentage/100`, each per-1K rate being the stored
per-million rate over 1000. -/
theorem calculateLlmProviderCost_tokenRates (rateDb : String → String → DbFetch ModelRateRow)
    (p m : String) (inT outT i o pr : ℚ)
    (hfix : fixedCostLookup p (some m) = none) (hm : m ≠ "")
    (hrow : rateDb (normalizeProvider p) (normalizeProvider p ++ "/" ++ jsToLower m)
      = DbFetch.row ⟨some i, some o⟩)
    (hpr : 0 ≤ pr) :
    calculateLlmProviderCost rateDb (DbFetch.row (some pr)) p (some m) inT outT
      = round6 (((inT / 1000) * (i / 1000) + (outT / 1000) * (o / 1000)) * (1 + pr / 100)) := by
  unfold calculateLlmProviderCost
  rw [hfix]
  unfold tokenBaseCost pricingPrimeMultiplier
  simp only [hrow, if_neg hm, if_pos hpr]

/-- Witness for C5, the spec's scenario: provider `gemini` (normalised to
`google`), model `gemini-1.5-flash`, 1000 input and 500 output tokens,
stored rates $1/M and $2/M, prime 20 percent: the cost is
0.0024 = 3/1250. -/
theorem calculateLlmProviderCost_tokenRates_witness :
    fixedCostLookup "gemini" (some "gemini-1.5-flash") = none
      ∧ "gemini-1.5-flash" ≠ ""
      ∧ geminiRateDb (normalizeProvider "gemini")
          (normalizeProvider "gemini" ++ "/" ++ jsToLower "gemini-1.5-flash")
        = DbFetch.row ⟨some 1, some 2⟩
      ∧ (0 : ℚ) ≤ 20
      ∧ calculateLlmProviderCost geminiRateDb (DbFetch.row (some 20)) "gemini"
          (some "gemini-1.5-flash") 1000 500 = 3 / 1250 := by
  refine ⟨by decide, by decide, by decide, by norm_num, ?_⟩
  rw [calculateLlmProviderCost_tokenRates geminiRateDb "gemini" "gemini-1.5-flash"
    1000 500 1 2 20 (by decide) (by decide) (by decide) (by norm_num)]
  rw [round6_intValue _ 2400 (by norm_num)]
  norm_num

/-- Claim C6: `calculateLlmProviderCost` is total (the embedding is a pure
function, and every query outcome including a thrown one is handled): a
missing row, non-numeric rates or a thrown `models` query all degrade the
base cost to `(inputTokens/1000)*0.002 + (outputTokens/1000)*0.002`, and
the result is that fallback base times the prime multiplier (rounded to
six decimals); a thrown, missing, non-numeric or negative prime config
degrades the multiplier to 1. -/
theorem calculateLlmProviderCost_fallback (rateDb : String → String → DbFetch ModelRateRow)
    (primeConfig : DbFetch (Option ℚ)) (p m : String) (inT outT : ℚ)
    (hfix : fixedCostLookup p (some m) = none) (hm : m ≠ "")
    (hdeg : rateLookupDegraded
      (rateDb (normalizeProvider p) (normalizeProvider p ++ "/" ++ jsToLower m))) :
    calculateLlmProviderCost rateDb primeConfig p (some m) inT outT
        = round6 (((inT / 1000) * (2 / 1000) + (outT / 1000) * (2 / 1000))
            * pricingPrimeMultiplier primeConfig)
      ∧ (configValueDegraded primeConfig → pricingPrimeMultiplier primeConfig = 1) := by
  constructor
  · simp only [calculateLlmProviderCost, hfix, tokenBaseCost, if_neg hm]
    cases hfetch : rateDb (normalizeProvider p) (normalizeProvider p ++ "/" ++ jsToLower m) with
    | err => rfl
    | empty => rfl
    | row r =>
        rw [hfetch] at hdeg
        obtain ⟨ri, ro⟩ := r
        cases ri with
        | none => cases ro <;> rfl
        | some i =>
            cases ro with
            | none => rfl
            | some o => exact absurd hdeg (by simp [rateLookupDegraded])
  · intro hdp
    rcases hdp with h | h | h | ⟨v, h, hv⟩
    · subst h; rfl
    · subst h; rfl
    · subst h; rfl
    · subst h
      show (if 0 ≤ v then 1 + v / 100 else FALLBACK_PRICING_PRIME_MULTIPLIER) = 1
      rw [if_neg (not_le.mpr hv)]
      rfl

/-- Witness for C6: a `models` query that throws and a prime config that
throws degrade to the default rate with multiplier 1: for 1000 input and
500 output tokens the cost is 0.003 = 3/1000, with no error raised. -/
theorem calculateLlmProviderCost_fallback_witness :
    fixedCostLookup "openai" (some "unknown-model") = none
      ∧ "unknown-model" ≠ ""
      ∧ rateLookupDegraded (throwingRateDb (normalizeProvider "openai")
          (normalizeProvider "openai" ++ "/" ++ jsToLower "unknown-model"))
      ∧ configValueDegraded DbFetch.err
      ∧ pricingPrimeMultiplier DbFetch.err = 1
      ∧ calculateLlmProviderCost throwingRateDb DbFetch.err "openai" (some "unknown-model")
          1000 500 = 3 / 1000 := by
  have h := calculateLlmProviderCost_fallback throwingRateDb DbFetch.err "openai"
    "unknown-model" 1000 500 (by decide) (by decide) trivial
  have hm : pricingPrimeMultiplier (DbFetch.err : DbFetch (Option ℚ)) = 1 :=
    h.2 (Or.inl rfl)
  refine ⟨by decide, by decide, trivial, Or.inl rfl, hm, ?_⟩
  rw [h.1, hm]
  rw [round6_intValue _ 3000 (by norm_num)]
  norm_num

/-- Claim C7: a normalised key present in the static `FIXED_MODEL_COSTS`
table makes `calculateLlmProviderCost` skip token-based math entirely:
the result is the flat per-call cost times the prime multiplier (rounded
to six decimals), independent of the token counts and of the `models`
table. -/
theorem calculateLlmProviderCost_fixedPrice (p : String) (mo : Option String)
    (primeConfig : DbFetch (Option ℚ)) (c : ℚ) (inT outT inT' outT' : ℚ)
    (hfix : fixedCostLookup p mo = some c) :
    (∀ rateDb, calculateLlmProviderCost rateDb primeConfig p mo inT outT
        = round6 (c * pricingPrimeMultiplier primeConfig))
    ∧ (∀ rateDb rateDb', calculateLlmProviderCost rateDb primeConfig p mo inT outT
        = calculateLlmProviderCost rateDb' primeConfig p mo inT' outT') := by
  constructor
  · intro rateDb
    unfold calculateLlmProviderCost
    rw [hfix]
  · intro rateDb rateDb'
    unfold calculateLlmProviderCost
    rw [hfix]

/-- Witness for C7, the spec's scenario: key `openai/dall-e-3` with prime
20 percent yields 0.048 = 6/125, for any token counts (here 1234/5678 vs
1/0) and any `models` environment. -/
theorem calculateLlmProviderCost_fixedPrice_witness :
    fixedCostLookup "openai" (some "dall-e-3") = some (4 / 100)
      ∧ calculateLlmProviderCost throwingRateDb (DbFetch.row (some 20)) "openai"
          (some "dall-e-3") 1234 5678 = 6 / 125
      ∧ calculateLlmProviderCost throwingRateDb (DbFetch.row (some 20)) "openai"
          (some "dall-e-3") 1234 5678
        = calculateLlmProviderCost geminiRateDb (DbFetch.row (some 20)) "openai"
            (some "dall-e-3") 1 0 := by
  have h := calculateLlmProviderCost_fixedPrice "openai" (some "dall-e-3")
    (DbFetch.row (some 20)) (4 / 100) 1234 5678 1 0 rfl
  refine ⟨rfl, ?_, h.2 throwingRateDb geminiRateDb⟩
  rw [h.1 throwingRateDb]
  have hmul : pricingPrimeMultiplier (DbFetch.row (some (20 : ℚ))) = 1 + 20 / 100 := by
    show (if (0 : ℚ) ≤ 20 then 1 + (20 : ℚ) / 100 else FALLBACK_PRICING_PRIME_MULTIPLIER)
      = 1 + 20 / 100
    rw [if_pos (by norm_num)]
  rw [hmul, round6_intValue _ 48000 (by norm_num)]
  norm_num

/-- Claim C8: `getNeuroSwitchClassifierFee` always returns a non-negative
number of dollars; a present, numeric, non-negative
`neuroswitch_classifier_fee_cents` is converted cents to dollars, and a
missing key, non-numeric value, negative value or thrown query yields the
hardcoded 0.001-dollar fallback — the function is total, so it never
throws. -/
theorem getNeuroSwitchClassifierFee_spec (feeConfig : DbFetch (Option ℚ)) :
    0 ≤ getNeuroSwitchClassifierFee feeConfig
    ∧ (∀ v : ℚ, feeConfig = DbFetch.row (some v) → 0 ≤ v →
        getNeuroSwitchClassifierFee feeConfig = v / 100)
    ∧ (configValueDegraded feeConfig → getNeuroSwitchClassifierFee feeConfig = 1 / 1000) := by
  refine ⟨?_, ?_, ?_⟩
  · cases feeConfig with
    | err => show (0 : ℚ) ≤ 1 / 1000; norm_num
    | empty => show (0 : ℚ) ≤ 1 / 1000; norm_num
    | row v =>
        cases v with
        | none => show (0 : ℚ) ≤ 1 / 1000; norm_num
        | some w =>
            show 0 ≤ (if 0 ≤ w then w / 100 else FALLBACK_NEUROSWITCH_CLASSIFIER_FEE_DOLLARS)
            by_cases hw : 0 ≤ w
            · rw [if_pos hw]
              positivity
            · rw [if_neg hw]
              show (0 : ℚ) ≤ 1 / 1000
              norm_num
  · intro v hv hw
    subst hv
    show (if 0 ≤ v then v / 100 else FALLBACK_NEUROSWITCH_CLASSIFIER_FEE_DOLLARS) = v / 100
    rw [if_pos hw]
  · intro hd
    rcases hd with h | h | h | ⟨v, h, hv⟩
    · subst h; rfl
    · subst h; rfl
    · subst h; rfl
    · subst h
      show (if 0 ≤ v then v / 100 else FALLBACK_NEUROSWITCH_CLASSIFIER_FEE_DOLLARS) = 1 / 1000
      rw [if_neg (not_le.mpr hv)]
      rfl

/-- Witness for C8: a stored fee of 25 cents yields 0.25 dollars, and a
thrown query yields the 0.001-dollar fallback; both are non-negative. -/
theorem getNeuroSwitchClassifierFee_spec_witness :
    0 ≤ getNeuroSwitchClassifierFee (DbFetch.row (some 25))
      ∧ getNeuroSwitchClassifierFee (DbFetch.row (some 25)) = 25 / 100
      ∧ configValueDegraded (DbFetch.err : DbFetch (Option ℚ))
      ∧ getNeuroSwitchClassifierFee DbFetch.err = 1 / 1000 :=
  ⟨(getNeuroSwitchClassifierFee_spec (DbFetch.row (some 25))).1,
   (getNeuroSwitchClassifierFee_spec (DbFetch.row (some 25))).2.1 25 rfl (by norm_num),
   Or.inl rfl,
   (getNeuroSwitchClassifierFee_spec DbFetch.err).2.2 (Or.inl rfl)⟩

/-- Claim C9: the role-update handler rejects any requested role whose
lowercase form is outside the fixed set `VALID_ROLES`, leaving the users
table untouched; and — the acting user being an admin, as the admin API
guarantees — a request that would demote the last remaining admin is
rejected (the actor then is that admin, so the self-demotion guard
fires), again leaving the target's role unchanged. -/
theorem updateUserRole_rejections :
    (∀ (db : UsersDb) (a t : ℕ) (r : String), jsToLower r ∉ VALID_ROLES →
        updateUserRole db a t r = (RoleUpdateResult.invalidRole, db))
    ∧ (∀ (db : UsersDb) (a t : ℕ) (r : String),
        db.roles a = some "admin" → db.roles t = some "admin" →
        (∀ u, db.roles u = some "admin" → u = t) → jsToLower r ≠ "admin" →
        (updateUserRole db a t r).2 = db
          ∧ ((updateUserRole db a t r).1 = RoleUpdateResult.invalidRole
              ∨ (updateUserRole db a t r).1 = RoleUpdateResult.selfDemotion)) := by
  constructor
  · intro db a t r hr
    unfold updateUserRole
    rw [if_pos hr]
  · intro db a t r hadm _ hlast hr
    have hat : a = t := hlast a hadm
    subst hat
    unfold updateUserRole
    by_cases hv : jsToLower r ∈ VALID_ROLES
    · rw [if_neg (by simpa using hv), if_pos ⟨rfl, hr⟩]
      exact ⟨rfl, Or.inr rfl⟩
    · rw [if_pos hv]
      exact ⟨rfl, Or.inl rfl⟩

/-- Witness for C9: the role `owner` is rejected as invalid, and demoting
user 1 — the sole admin, acting on themselves — to `user` is rejected as
self-demotion; the users table is unchanged in both cases. -/
theorem updateUserRole_rejections_witness :
    jsToLower "owner" ∉ VALID_ROLES
      ∧ updateUserRole soleAdminDb 1 2 "owner" = (RoleUpdateResult.invalidRole, soleAdminDb)
      ∧ soleAdminDb.roles 1 = some "admin"
      ∧ jsToLower "user" ≠ "admin"
      ∧ (updateUserRole soleAdminDb 1 1 "user").2 = soleAdminDb
      ∧ (updateUserRole soleAdminDb 1 1 "user").1 = RoleUpdateResult.selfDemotion := by
  have h1 := updateUserRole_rejections.1 soleAdminDb 1 2 "owner" (by decide)
  have h2 := updateUserRole_rejections.2 soleAdminDb 1 1 "user" (by decide) (by decide)
    (fun u hu => by
      by_cases h : u = 1
      · exact h
      · exfalso
        have hn : soleAdminDb.roles u = none := if_neg h
        rw [hn] at hu
        exact Option.noConfusion hu) (by decide)
  refine ⟨by decide, h1, by decide, by decide, h2.1, ?_⟩
  rcases h2.2 with h | h
  · exact absurd h (by decide)
  · exact h

/-- Claim C10: no-op updates leave state unchanged and still report
success: a role update whose normalised requested role equals the stored
one returns the no-change success with the users table untouched, and a
model-configuration update whose input cost, output cost and active flag
all equal the stored row returns the no-change success with the models
table untouched. -/
theorem noop_updates_unchanged :
    (∀ (db : UsersDb) (a t : ℕ) (r : String),
        jsToLower r ∈ VALID_ROLES → ¬(t = a ∧ jsToLower r ≠ "admin") →
        db.roles t = some (jsToLower r) →
        updateUserRole db a t r = (RoleUpdateResult.noChange (jsToLower r), db))
    ∧ (∀ (db : ModelsDb) (mid : ℕ) (nm : String) (ic oc : ℚ) (act : Bool),
        ¬(ic < 0 ∨ oc < 0) →
        db.rows mid = some ⟨nm, some ic, some oc, act⟩ →
        updateModelConfig db mid (some ic) (some oc) act = (ModelUpdateResult.noChange, db)) := by
  constructor
  · intro db a t r hv hself hcur
    unfold updateUserRole
    rw [if_neg (by simpa using hv), if_neg hself, hcur]
    simp
  · intro db mid nm ic oc act hnn hrow
    simp only [updateModelConfig]
    rw [if_neg hnn, hrow]
    simp

/-- Witness for C10: setting the sole admin's role to `admin` again is a
no-change success, and re-submitting model 3's stored costs (5, 15) and
active flag is a no-change success; neither touches its table. -/
theorem noop_updates_unchanged_witness :
    jsToLower "Admin" ∈ VALID_ROLES
      ∧ soleAdminDb.roles 1 = some (jsToLower "Admin")
      ∧ updateUserRole soleAdminDb 1 1 "Admin"
        = (RoleUpdateResult.noChange (jsToLower "Admin"), soleAdminDb)
      ∧ modelsDb3.rows 3 = some ⟨"gpt-4o", some 5, some 15, true⟩
      ∧ updateModelConfig modelsDb3 3 (some 5) (some 15) true
        = (ModelUpdateResult.noChange, modelsDb3) := by
  refine ⟨by decide, by decide, ?_, rfl, ?_⟩
  · exact noop_updates_unchanged.1 soleAdminDb 1 1 "Admin" (by decide)
      (fun h => h.2 (by decide)) (by decide)
  · exact noop_updates_unchanged.2 modelsDb3 3 "gpt-4o" 5 15 true
      (by norm_num) rfl

end Fusion
